import Mathlib

/-!
Verification development for `anki_flashcard_adder.py`.

The script is a linear command-line program that
(1) reads a generative-service API key from the environment,
(2) generates flashcard content over HTTP, and
(3) inserts a note into a local card store via a loopback HTTP control API.

We embed the program shallowly: Python values that can flow through the
JSON-handling code are modelled by `JsonVal` (with `JsonVal.null` playing the
role of Python `None`), each outbound HTTP interaction is modelled by a
response value supplied as an explicit argument, and interactive input is a
record of the strings the user would type.  The observable behaviour of a run
(prompts shown, lines printed, HTTP requests issued) is an explicit event
trace.  Exceptions inside the Python functions are modelled with `Except`;
every handler in the source catches them, so the embedded functions are total.
-/

/-- Python/JSON values as they appear in this program.  `null` doubles as
Python `None` (which is what `json.loads` produces for JSON `null`).
Floats never arise in the modelled paths, so numbers are integers. -/
inductive JsonVal where
  | null
  | bool (b : Bool)
  | num (n : Int)
  | str (s : String)
  | arr (xs : List JsonVal)
  | obj (fields : List (String × JsonVal))
  deriving Repr

mutual
/-- Structural equality on `JsonVal`, used for Python `==` / `in` tests.
(The program only ever compares strings this way, where structural equality
and Python equality agree.) -/
def jsonBeq : JsonVal → JsonVal → Bool
  | .null, .null => true
  | .bool a, .bool b => a == b
  | .num a, .num b => a == b
  | .str a, .str b => a == b
  | .arr xs, .arr ys => jsonListBeq xs ys
  | .obj fs, .obj gs => jsonFieldsBeq fs gs
  | _, _ => false
  termination_by structural x => x
/-- Pointwise equality of JSON arrays. -/
def jsonListBeq : List JsonVal → List JsonVal → Bool
  | [], [] => true
  | x :: xs, y :: ys => jsonBeq x y && jsonListBeq xs ys
  | _, _ => false
  termination_by structural x => x
/-- Pointwise equality of JSON object field lists. -/
def jsonFieldsBeq : List (String × JsonVal) → List (String × JsonVal) → Bool
  | [], [] => true
  | (k, v) :: fs, (l, w) :: gs => k == l && jsonBeq v w && jsonFieldsBeq fs gs
  | _, _ => false
  termination_by structural x => x
end

/-- Python truthiness (`bool(v)`) for the values modelled here. -/
def truthyV : JsonVal → Bool
  | .null => false
  | .bool b => b
  | .num n => n != 0
  | .str s => !s.data.isEmpty
  | .arr xs => !xs.isEmpty
  | .obj fs => !fs.isEmpty

/-- Python truthiness of a `dict.get` result (`None` when the key is absent). -/
def truthyO : Option JsonVal → Bool
  | none => false
  | some v => truthyV v

/-- Python `v.get(k)`: `None` when the key is absent; raises `AttributeError`
when `v` is not a dict.  (`json.loads` yields dicts with unique keys, so
first-match lookup agrees with Python.) -/
def pyGet (v : JsonVal) (k : String) : Except String (Option JsonVal) :=
  match v with
  | .obj fs => .ok (fs.lookup k)
  | _ => .error "AttributeError: no attribute get"

/-- Python `v[k]` for a string key: raises `KeyError` when absent and
`TypeError` when `v` is not a dict. -/
def pyKey (v : JsonVal) (k : String) : Except String JsonVal :=
  match v with
  | .obj fs =>
    match fs.lookup k with
    | some x => .ok x
    | none => .error ("KeyError: " ++ k)
  | _ => .error "TypeError: value is not subscriptable by string"

/-- Python `v[i]` for an integer index (lists index elements, strings index
characters; anything else raises). -/
def pyIndex (v : JsonVal) (i : Nat) : Except String JsonVal :=
  match v with
  | .arr xs =>
    match xs.get? i with
    | some x => .ok x
    | none => .error "IndexError: list index out of range"
  | .str s =>
    match s.data.get? i with
    | some c => .ok (.str (String.mk [c]))
    | none => .error "IndexError: string index out of range"
  | _ => .error "TypeError: value is not subscriptable by index"

/-- Python `len(v)`: defined for lists, strings and dicts, raises otherwise. -/
def pyLen (v : JsonVal) : Except String Nat :=
  match v with
  | .arr xs => .ok xs.length
  | .str s => .ok s.data.length
  | .obj fs => .ok fs.length
  | _ => .error "TypeError: value has no len"

/-- The value of a caught computation: the returned value when no exception
was raised, `None` when the enclosing handler caught one (every handler in
the source prints a diagnostic and returns `None`). -/
def exceptValue : Except String JsonVal → JsonVal
  | .ok v => v
  | .error _ => .null

/-- The body the generative-service HTTP response decodes to: either it fails
to parse (`json.loads` raises `JSONDecodeError`) or it is a JSON value. -/
inductive GeminiBody where
  | invalid
  | json (v : JsonVal)

/-- Outcome of the generator's single `urlopen` call: either the call (or the
read of its body) raises — covering `urllib.error.HTTPError`, transport
errors and any other exception — or an HTTP response with a status code and
a body arrives. -/
inductive GeminiResponse where
  | transportError (msg : String)
  | http (status : Nat) (body : GeminiBody)

/-- The candidate-extraction chain of `generate_flashcard_content`
(source lines 69-78): the Python condition
`result.get('candidates') and len(result['candidates']) > 0 and
result['candidates'][0].get('content') and
result['candidates'][0]['content'].get('parts') and
len(result['candidates'][0]['content']['parts']) > 0`
followed by `result['candidates'][0]['content']['parts'][0]['text']`.
A falsy link short-circuits to the `else` branch, which returns `None`
(`.ok .null` here); a raising link is `.error`, caught by the enclosing
`except Exception` handler of the source. -/
def geminiTryBody (result : JsonVal) : Except String JsonVal :=
  match pyGet result "candidates" with
  | .error e => .error e
  | .ok none => .ok .null
  | .ok (some cand) =>
    if truthyV cand then
      match pyLen cand with
      | .error e => .error e
      | .ok n =>
        if n > 0 then
          match pyIndex cand 0 with
          | .error e => .error e
          | .ok c0 =>
            match pyGet c0 "content" with
            | .error e => .error e
            | .ok none => .ok .null
            | .ok (some content) =>
              if truthyV content then
                match pyGet content "parts" with
                | .error e => .error e
                | .ok none => .ok .null
                | .ok (some parts) =>
                  if truthyV parts then
                    match pyLen parts with
                    | .error e => .error e
                    | .ok m =>
                      if m > 0 then
                        match pyIndex parts 0 with
                        | .error e => .error e
                        | .ok p0 => pyKey p0 "text"
                      else .ok .null
                  else .ok .null
              else .ok .null
          else .ok .null
    else .ok .null

/-- `generate_flashcard_content(api_key, concept)` (source lines 27-92),
with the outcome of its one HTTP call passed explicitly.  Every failure path
of the source — transport exception, non-200 status, JSON decode failure,
missing candidate path, or any exception from the extraction chain — prints a
diagnostic and returns `None`; the diagnostics are not traced here, only the
returned value.  `api_key` and `concept` shape the request, not the result. -/
def generate_flashcard_content (api_key concept : String)
    (resp : GeminiResponse) : JsonVal :=
  match resp with
  | .transportError _ => .null
  | .http status body =>
    if status = 200 then
      match body with
      | .invalid => .null
      | .json result => exceptValue (geminiTryBody result)
    else .null

/-- `get_gemini_api_key` (source lines 12-24): first component is the lines
printed, second the returned key (`None` when the variable is unset or empty,
since `if not api_key` treats the empty string as absent). -/
def get_gemini_api_key (env : Option String) : List String × Option String :=
  let errLines := ["---",
    "ERROR: GEMINI_API_KEY environment variable not set.",
    "Please set the environment variable with your Gemini API key.",
    "You can get a key from Google AI Studio.",
    "---"]
  match env with
  | none => (errLines, none)
  | some k => if k = "" then (errLines, none) else ([], some k)

/-- The generator as its callers experience it: resolve the key from the
environment, then call `generate_flashcard_content`; an absent key yields an
absent result without any HTTP call. -/
def generatorPipeline (env : Option String) (concept : String)
    (resp : GeminiResponse) : JsonVal :=
  match (get_gemini_api_key env).2 with
  | none => .null
  | some key => generate_flashcard_content key concept resp

/-- The well-formedness path the spec names: `candidates[0].content.parts[0]`,
read with plain JSON-object lookups.  `some p0` means the path exists and ends
at the first part. -/
def extractPath (result : JsonVal) : Option JsonVal :=
  match result with
  | .obj fs =>
    match fs.lookup "candidates" with
    | some (.arr (c0 :: _)) =>
      match c0 with
      | .obj cfs =>
        match cfs.lookup "content" with
        | some (.obj confs) =>
          match confs.lookup "parts" with
          | some (.arr (p0 :: _)) => some p0
          | _ => none
        | _ => none
      | _ => none
    | _ => none
  | _ => none

/-- Outcome of one AnkiConnect exchange: either `urlopen`/`json.load` raises
(connection refused, bad body, ...) or a parsed response value arrives. -/
inductive AnkiResponse where
  | exn (msg : String)
  | envelope (v : JsonVal)

/-- The fixed loopback endpoint every AnkiConnect request is sent to
(source line 99). -/
def ankiURL : String := "http://localhost:8765"

/-- The versioned request envelope `{'action': action, 'version': 6,
'params': params}` (source line 98). -/
def ankiEnvelope (action : String) (params : JsonVal) : JsonVal :=
  .obj [("action", .str action), ("version", .num 6), ("params", params)]

/-- The value `anki_request` returns (source lines 100-109): on any raise the
handler returns `None`; a non-dict response raises on `.get` (also `None`); a
truthy `error` field raises `Exception(response_data['error'])`, caught by the
same handler (`None`); otherwise `response_data.get('result')` is returned,
`None` when the key is absent (and JSON `null` is Python `None` anyway). -/
def ankiResult (resp : AnkiResponse) : JsonVal :=
  match resp with
  | .exn _ => .null
  | .envelope v =>
    match v with
    | .obj fs =>
      match fs.lookup "error" with
      | some e => if truthyV e then .null else (fs.lookup "result").getD .null
      | none => (fs.lookup "result").getD .null
    | _ => .null

/-- Whether the exchange takes the `except` path of `anki_request` (and hence
prints the two-line failure message): a raise from `urlopen`/`json.load`, a
non-dict response, or a truthy `error` field. -/
def ankiFailed (resp : AnkiResponse) : Bool :=
  match resp with
  | .exn _ => true
  | .envelope v =>
    match v with
    | .obj fs =>
      match fs.lookup "error" with
      | some e => truthyV e
      | none => false
    | _ => true

/-- Rendering of a value by `print(f"...{e}")` in the failure messages.
Container renderings are abbreviated: no claim depends on them. -/
def displayVal : JsonVal → String
  | .null => "None"
  | .bool true => "True"
  | .bool false => "False"
  | .num n => toString n
  | .str s => s
  | .arr _ => "[...]"
  | .obj _ => "\x7b...\x7d"

/-- The message of the exception `anki_request`'s handler prints: the raise's
own message, the raised `error` field, or the `AttributeError` text from
`.get` on a non-dict. -/
def ankiErrMsg (resp : AnkiResponse) : String :=
  match resp with
  | .exn msg => msg
  | .envelope v =>
    match v with
    | .obj fs =>
      match fs.lookup "error" with
      | some e => if truthyV e then displayVal e else ""
      | none => ""
    | _ => "AttributeError: no attribute get"

/-- One observable step of a run: a prompt shown by `input(...)`, a printed
line, an AnkiConnect request (action plus params), or the generator's HTTP
call. -/
inductive Event where
  | prompt (text : String)
  | print (text : String)
  | ankiCall (action : String) (params : JsonVal)
  | geminiCall (concept : String)

/-- `anki_request(action, **params)` (source lines 94-109): the single
request it sends — always to `ankiURL` with the versioned envelope — together
with the lines it prints and the value it returns. -/
def anki_request (action : String) (params : JsonVal) (resp : AnkiResponse) :
    (String × JsonVal) × List Event × JsonVal :=
  ((ankiURL, ankiEnvelope action params),
   [Event.ankiCall action params] ++
     (if ankiFailed resp then
       [Event.print ("Error communicating with AnkiConnect: " ++ ankiErrMsg resp),
        Event.print "Please ensure Anki is running and the AnkiConnect add-on is installed and configured correctly."]
     else []),
   ankiResult resp)

/-- Python whitespace for `str.strip()` (ASCII part; the program's tag inputs
never carry the rarer Unicode whitespace). -/
def pySpace (c : Char) : Bool :=
  c = ' ' || c = '\t' || c = '\n' || c = '\x0d' || c = '\x0b' || c = '\x0c'

/-- Python `s.split(',')` on character lists: every comma separates, empty
pieces are kept, and the empty string yields one empty piece. -/
def splitCommaL : List Char → List (List Char)
  | [] => [[]]
  | c :: rest =>
    match splitCommaL rest with
    | [] => []
    | piece :: pieces =>
      if c = ',' then [] :: piece :: pieces else (c :: piece) :: pieces

/-- Python `s.strip()` on character lists: drop leading and trailing
whitespace. -/
def stripL (l : List Char) : List Char :=
  ((l.dropWhile pySpace).reverse.dropWhile pySpace).reverse

/-- The tag normalization of source lines 164-165:
`input(...).split(',')` then `[tag.strip() for tag in tags if tag.strip()]`
(strip each piece, keep the non-empty ones). -/
def normTagsL (l : List Char) : List (List Char) :=
  ((splitCommaL l).map stripL).filter (fun t => !t.isEmpty)

/-- Tag normalization on strings. -/
def normalizeTags (s : String) : List String :=
  (normTagsL s.data).map (fun t => String.mk t)

/-- Joining a list of pieces with commas (the inverse direction of
`split(',')`), on character lists. -/
def joinCommaL : List (List Char) → List Char
  | [] => []
  | [t] => t
  | t :: ts => t ++ ',' :: joinCommaL ts

/-- Joining a list of tag strings with commas: the re-joining step of the
round-trip property. -/
def joinTags (ts : List String) : String :=
  String.mk (joinCommaL (ts.map String.data))

/-- Lower-casing of one character (ASCII part of Python `str.lower`; the
program only compares the result with `"y"`). -/
def pyLowerChar (c : Char) : Char :=
  if 'A' ≤ c ∧ c ≤ 'Z' then Char.ofNat (c.toNat + 32) else c

/-- Python `s.lower()`. -/
def pyLower (s : String) : String := String.mk (s.data.map pyLowerChar)

/-- Python `for x in v`: lists yield elements, strings yield one-character
strings, dicts yield their keys; other values raise `TypeError`. -/
def pyIter (v : JsonVal) : Except String (List JsonVal) :=
  match v with
  | .arr xs => .ok xs
  | .str s => .ok (s.data.map (fun c => .str (String.mk [c])))
  | .obj fs => .ok (fs.map (fun p => .str p.1))
  | _ => .error "TypeError: value is not iterable"

/-- Whether `needle` occurs contiguously inside `hay`. -/
def isSubstr (needle hay : List Char) : Bool :=
  (List.range (hay.length + 1)).any (fun i => needle.isPrefixOf (hay.drop i))

/-- Python `x in y`: membership for lists (element equality), substring test
for strings, key lookup for dicts; other containers raise. -/
def pyIn (x y : JsonVal) : Except String Bool :=
  match y with
  | .arr xs => .ok (xs.any (fun e => jsonBeq e x))
  | .str s =>
    match x with
    | .str t => .ok (isSubstr t.data s.data)
    | _ => .error "TypeError: in string requires string as left operand"
  | .obj fs =>
    match x with
    | .str t => .ok (fs.any (fun p => p.1 == t))
    | .num _ => .ok false
    | .bool _ => .ok false
    | .null => .ok false
    | _ => .error "TypeError: unhashable type"
  | _ => .error "TypeError: argument is not iterable"

/-- Everything outside the program that one run of `create_flashcard`
consumes: the environment variable, the strings typed at each prompt (each
read at most once, in program order) and the outcome of each of the three
possible AnkiConnect exchanges and the one generator exchange. -/
structure World where
  env : Option String
  deckNamesResp : AnkiResponse
  ans1 : String
  ans2 : String
  deckInput : String
  createAns : String
  createDeckResp : AnkiResponse
  conceptInput : String
  geminiResp : GeminiResponse
  tagsInput : String
  addNoteResp : AnkiResponse

/-- The deck name `create_flashcard` binds in lines 132-135, if any:
`"AI_Adder"` when the first `"\nAI_Adder?"` answer is `"y"`; the free-text
entry when the (second) answer is `"n"`; otherwise `deck_name` is never
assigned and the membership test of line 137 raises `NameError`. -/
def resolvedDeck (w : World) : Option String :=
  if w.ans1 = "y" then some "AI_Adder"
  else if w.ans2 = "n" then some w.deckInput
  else none

/-- The note dict of source lines 168-180. -/
def mkNote (deck_name front : String) (back : JsonVal) (tags : List String) : JsonVal :=
  .obj [("deckName", .str deck_name),
        ("modelName", .str "Basic"),
        ("fields", .obj [("Front", .str front), ("Back", back)]),
        ("options", .obj [("allowDuplicate", .bool false), ("duplicateScope", .str "deck")]),
        ("tags", .arr (tags.map (fun t => .str t)))]

/-- The deck-handling phase of `create_flashcard` (source lines 122-149, the
`try` block): fetch deck names, list them, run the favourite-deck prompts,
and create the deck if needed.  Returns the emitted events and the deck name
when the run continues (`none` when it returns early, including via the
`except` handler of line 147, which catches the `NameError` from an unbound
`deck_name` and any `TypeError` from iterating or testing membership on a
non-list response). -/
def deckPhase (w : World) : List Event × Option String :=
  let dnEvs := (anki_request "deckNames" (.obj []) w.deckNamesResp).2.1
  match ankiResult w.deckNamesResp with
  | .null => (dnEvs, none)
  | dn =>
    let headerEv := Event.print "\nAvailable Decks:"
    match pyIter dn with
    | .error e =>
      (dnEvs ++ [headerEv, Event.print ("An error occurred while handling decks: " ++ e)], none)
    | .ok items =>
      let listEvs := dnEvs ++ [headerEv] ++ items.map (fun d => Event.print ("- " ++ displayVal d))
      let p1 := Event.prompt "\nAI_Adder?"
      let promptEvs :=
        if w.ans1 = "y" then [p1]
        else if w.ans2 = "n" then
          [p1, p1, Event.prompt "\nEnter the name of the deck to add the card to: "]
        else [p1, p1]
      match resolvedDeck w with
      | none =>
        (listEvs ++ promptEvs ++
          [Event.print "An error occurred while handling decks: name 'deck_name' is not defined"], none)
      | some deck_name =>
        match pyIn (.str deck_name) dn with
        | .error e =>
          (listEvs ++ promptEvs ++ [Event.print ("An error occurred while handling decks: " ++ e)], none)
        | .ok mem =>
          if mem then (listEvs ++ promptEvs, some deck_name)
          else
            let cPrompt := Event.prompt ("Deck '" ++ deck_name ++ "' does not exist. Create it? (y/n): ")
            if pyLower w.createAns = "y" then
              let cdEvs :=
                (anki_request "createDeck" (.obj [("deck", .str deck_name)]) w.createDeckResp).2.1
              match ankiResult w.createDeckResp with
              | .null =>
                (listEvs ++ promptEvs ++ [cPrompt] ++ cdEvs ++
                  [Event.print ("Failed to create deck '" ++ deck_name ++ "'.")], none)
              | _ =>
                (listEvs ++ promptEvs ++ [cPrompt] ++ cdEvs ++
                  [Event.print ("Deck '" ++ deck_name ++ "' created successfully.")], some deck_name)
            else
              (listEvs ++ promptEvs ++ [cPrompt, Event.print "Card creation cancelled."], none)

/-- The card phase of `create_flashcard` (source lines 152-193): prompt for
the concept, invoke the generator, prompt for tags, build the note and submit
it.  The `try` of line 183 never fires: `anki_request` catches internally and
the success prints cannot raise. -/
def notePhase (w : World) (key deck_name : String) : List Event :=
  let headEvs := [Event.prompt "\nEnter the word or concept for the flashcard: ",
    Event.print ("\nGenerating definition and example for '" ++ w.conceptInput ++ "' using Gemini..."),
    Event.geminiCall w.conceptInput]
  let content := generate_flashcard_content key w.conceptInput w.geminiResp
  if truthyV content then
    let tags := normalizeTags w.tagsInput
    let note := mkNote deck_name w.conceptInput content tags
    let anEvs := (anki_request "addNote" (.obj [("note", note)]) w.addNoteResp).2.1
    headEvs ++ [Event.prompt "Enter tags for the card (comma-separated, optional): "] ++ anEvs ++
      (if truthyV (ankiResult w.addNoteResp) then
        [Event.print ("\nSuccessfully added card to '" ++ deck_name ++ "'!"),
         Event.print ("  Front: " ++ w.conceptInput),
         Event.print ("  Back Content (HTML): \n" ++ displayVal content),
         Event.print ("  Tags: " ++ String.intercalate ", " tags)]
      else [Event.print "\nFailed to add the card. Check for errors above."])
  else
    headEvs ++ [Event.print "Could not generate card content. Please try again."]

/-- `create_flashcard()` (source lines 111-193) as the event trace of one
run against the world `w`. -/
def create_flashcard (w : World) : List Event :=
  let banner := [Event.print "--- AI-Powered Anki Flashcard Adder ---"]
  let (keyLines, keyOpt) := get_gemini_api_key w.env
  let keyEvs := keyLines.map Event.print
  match keyOpt with
  | none => banner ++ keyEvs
  | some key =>
    let (deckEvs, deckOpt) := deckPhase w
    match deckOpt with
    | none => banner ++ keyEvs ++ deckEvs
    | some deck_name => banner ++ keyEvs ++ deckEvs ++ notePhase w key deck_name

/-- Recognizer for `addNote` requests in a trace. -/
def isAddNote : Event → Bool
  | .ankiCall a _ => a = "addNote"
  | _ => false

/-- Recognizer for a prompt with the given text. -/
def isPromptOf (t : String) : Event → Bool
  | .prompt u => u = t
  | _ => false

/-- A well-formed generator response envelope whose first candidate's first
part carries the given text. -/
def geminiEnvelopeOf (text : String) : JsonVal :=
  .obj [("candidates", .arr [.obj [("content",
    .obj [("parts", .arr [.obj [("text", .str text)]])])]])]

/-- The world of the spec's end-to-end scenario: key present, deck list
`["Default"]`, favourite deck accepted, creation accepted and successful,
concept `"ubiquitous"`, generator text `"<p>Def</p><i>Example</i>"`, tags
input `"vocab, gre"`, `addNote` succeeding with a note id. -/
def C1world : World :=
  { env := some "k"
  , deckNamesResp := .envelope (.obj [("result", .arr [.str "Default"]), ("error", .null)])
  , ans1 := "y", ans2 := "x", deckInput := "unused"
  , createAns := "y"
  , createDeckResp := .envelope (.obj [("result", .num 1), ("error", .null)])
  , conceptInput := "ubiquitous"
  , geminiResp := .http 200 (.json (geminiEnvelopeOf "<p>Def</p><i>Example</i>"))
  , tagsInput := "vocab, gre"
  , addNoteResp := .envelope (.obj [("result", .num 1496198395707), ("error", .null)]) }

/-- The note the end-to-end scenario submits: the four components the spec
lists, with front and back the raw inputs verbatim, plus the fixed
duplicate-policy options the request always carries. -/
def C1note : JsonVal :=
  .obj [("deckName", .str "AI_Adder"),
        ("modelName", .str "Basic"),
        ("fields", .obj [("Front", .str "ubiquitous"),
                         ("Back", .str "<p>Def</p><i>Example</i>")]),
        ("options", .obj [("allowDuplicate", .bool false),
                          ("duplicateScope", .str "deck")]),
        ("tags", .arr [.str "vocab", .str "gre"])]

/-- Recognizer for AnkiConnect request events in a trace. -/
def isAnkiCallEvent : Event → Bool
  | .ankiCall _ _ => true
  | _ => false

/-- Recognizer for the success confirmation print: the only line the program prints that starts with a newline followed by `S` is `\nSuccessfully added card to '...'!`. -/
def isSuccessPrint : Event → Bool
  | .print t =>
    match t.data with
    | '\n' :: 'S' :: _ => true
    | _ => false
  | _ => false

/-- The duplicate-policy options every constructed note carries (source lines 175-178). -/
def ankiOptions : JsonVal :=
  .obj [("allowDuplicate", .bool false), ("duplicateScope", .str "deck")]

/-- The end-to-end world with the deck-creation answer `"x"`: the user declines creation. -/
def C5world : World := { C1world with createAns := "x" }

/-- The end-to-end world with the deck-creation answer `"Y"`: not the literal `"y"`, but accepted by the code because of `.lower()`. -/
def C5badWorld : World := { C1world with createAns := "Y" }

/-- The end-to-end world where the card store rejects the note as a duplicate: `addNote` answers with a `null` result and a non-empty `error`. -/
def C6world : World :=
  { C1world with addNoteResp := .envelope (.obj
      [("result", .null), ("error", .str "cannot create note because it is a duplicate")]) }

/-- The end-to-end world with tags input `"a, a, b"`, which repeats a tag. -/
def C8world : World := { C1world with tagsInput := "a, a, b" }

/-- The note built from the `"a, a, b"` tags input: the duplicate tag survives. -/
def C8note : JsonVal :=
  mkNote "AI_Adder" "ubiquitous" (.str "<p>Def</p><i>Example</i>") ["a", "a", "b"]

/-- A successful lookup needs a non-empty field list. -/
theorem lookup_ne_nil {α β : Type} [BEq α] {fs : List (α × β)} {k : α} {v : β}
    (h : fs.lookup k = some v) : fs.isEmpty = false := by
  cases fs with
  | nil => simp [List.lookup] at h
  | cons p ps => rfl

/-- Master case analysis of the extraction chain: the caught value is either `None` or the full `candidates[0].content.parts[0]` path exists in the envelope. -/
theorem gemini_value_cases (result : JsonVal) :
    exceptValue (geminiTryBody result) = JsonVal.null ∨
    ∃ p0 ps fs cs cfs confs, result = .obj fs ∧
      fs.lookup "candidates" = some (.arr (.obj cfs :: cs)) ∧
      cfs.lookup "content" = some (.obj confs) ∧
      confs.lookup "parts" = some (.arr (p0 :: ps)) := by
  cases result with
  | obj fs =>
    cases hc : fs.lookup "candidates" with
    | none => left; simp [geminiTryBody, pyGet, hc, exceptValue]
    | some cand =>
      cases cand with
      | null => left; simp [geminiTryBody, pyGet, hc, truthyV, exceptValue]
      | bool b =>
        left
        cases b <;> simp [geminiTryBody, pyGet, pyLen, hc, truthyV, exceptValue]
      | num n =>
        left
        rcases eq_or_ne n 0 with rfl | hn
        · simp [geminiTryBody, pyGet, pyLen, hc, truthyV, exceptValue]
        · simp [geminiTryBody, pyGet, pyLen, hc, truthyV, exceptValue, hn]
      | str s =>
        left
        obtain ⟨l⟩ := s
        cases l with
        | nil => simp [geminiTryBody, pyGet, hc, truthyV, exceptValue]
        | cons a as =>
          simp [geminiTryBody, pyGet, pyLen, pyIndex, hc, truthyV, exceptValue]
      | arr xs =>
        cases xs with
        | nil => left; simp [geminiTryBody, pyGet, hc, truthyV, exceptValue]
        | cons c0 cs =>
          cases c0 with
          | obj cfs =>
            cases hc2 : cfs.lookup "content" with
            | none =>
              left
              simp [geminiTryBody, pyGet, pyLen, pyIndex, hc, hc2, truthyV, exceptValue]
            | some content =>
              cases content with
              | obj confs =>
                rcases confs with _ | ⟨q, qs⟩
                case nil =>
                  left
                  simp [geminiTryBody, pyGet, pyLen, pyIndex, hc, hc2, truthyV, exceptValue]
                case cons =>
                  cases hc3 : (q :: qs).lookup "parts" with
                  | none =>
                    left
                    simp [geminiTryBody, pyGet, pyLen, pyIndex, hc, hc2, hc3, truthyV, exceptValue]
                  | some parts =>
                    cases parts with
                    | arr ys =>
                      cases ys with
                      | nil =>
                        left
                        simp [geminiTryBody, pyGet, pyLen, pyIndex, hc, hc2, hc3, truthyV, exceptValue]
                      | cons p0 ps =>
                        right
                        exact ⟨p0, ps, fs, cs, cfs, q :: qs, rfl, hc, hc2, hc3⟩
                    | str s =>
                      left
                      obtain ⟨l⟩ := s
                      cases l with
                      | nil =>
                        simp [geminiTryBody, pyGet, pyLen, pyIndex, hc, hc2, hc3, truthyV, exceptValue]
                      | cons a as =>
                        simp [geminiTryBody, pyGet, pyLen, pyIndex, pyKey, hc, hc2, hc3, truthyV, exceptValue]
                    | obj gs =>
                      left
                      cases gs with
                      | nil =>
                        simp [geminiTryBody, pyGet, pyLen, pyIndex, hc, hc2, hc3, truthyV, exceptValue]
                      | cons g gs' =>
                        simp [geminiTryBody, pyGet, pyLen, pyIndex, hc, hc2, hc3, truthyV, exceptValue]
                    | null =>
                      left
                      simp [geminiTryBody, pyGet, pyLen, pyIndex, hc, hc2, hc3, truthyV, exceptValue]
                    | bool b =>
                      left
                      cases b <;>
                        simp [geminiTryBody, pyGet, pyLen, pyIndex, hc, hc2, hc3, truthyV, exceptValue]
                    | num n =>
                      left
                      rcases eq_or_ne n 0 with rfl | hn
                      · simp [geminiTryBody, pyGet, pyLen, pyIndex, hc, hc2, hc3, truthyV, exceptValue]
                      · simp [geminiTryBody, pyGet, pyLen, pyIndex, hc, hc2, hc3, truthyV, exceptValue, hn]
              | null =>
                left
                simp [geminiTryBody, pyGet, pyLen, pyIndex, hc, hc2, truthyV, exceptValue]
              | bool b =>
                left
                cases b <;> simp [geminiTryBody, pyGet, pyLen, pyIndex, hc, hc2, truthyV, exceptValue]
              | num n =>
                left
                rcases eq_or_ne n 0 with rfl | hn
                · simp [geminiTryBody, pyGet, pyLen, pyIndex, hc, hc2, truthyV, exceptValue]
                · simp [geminiTryBody, pyGet, pyLen, pyIndex, hc, hc2, truthyV, exceptValue, hn]
              | str s =>
                left
                obtain ⟨l⟩ := s
                cases l with
                | nil => simp [geminiTryBody, pyGet, pyLen, pyIndex, hc, hc2, truthyV, exceptValue]
                | cons a as =>
                  simp [geminiTryBody, pyGet, pyLen, pyIndex, hc, hc2, truthyV, exceptValue]
              | arr ys =>
                left
                cases ys with
                | nil => simp [geminiTryBody, pyGet, pyLen, pyIndex, hc, hc2, truthyV, exceptValue]
                | cons y ys' =>
                  simp [geminiTryBody, pyGet, pyLen, pyIndex, hc, hc2, truthyV, exceptValue]
          | null => left; simp [geminiTryBody, pyGet, pyLen, pyIndex, hc, truthyV, exceptValue]
          | bool b => left; simp [geminiTryBody, pyGet, pyLen, pyIndex, hc, truthyV, exceptValue]
          | num n => left; simp [geminiTryBody, pyGet, pyLen, pyIndex, hc, truthyV, exceptValue]
          | str s => left; simp [geminiTryBody, pyGet, pyLen, pyIndex, hc, truthyV, exceptValue]
          | arr ys => left; simp [geminiTryBody, pyGet, pyLen, pyIndex, hc, truthyV, exceptValue]
      | obj gs =>
        left
        cases gs with
        | nil => simp [geminiTryBody, pyGet, hc, truthyV, exceptValue]
        | cons g gs' => simp [geminiTryBody, pyGet, pyLen, pyIndex, hc, truthyV, exceptValue]
  | null => left; simp [geminiTryBody, pyGet, exceptValue]
  | bool b => left; simp [geminiTryBody, pyGet, exceptValue]
  | num n => left; simp [geminiTryBody, pyGet, exceptValue]
  | str s => left; simp [geminiTryBody, pyGet, exceptValue]
  | arr xs => left; simp [geminiTryBody, pyGet, exceptValue]

/-- A fully-shaped envelope has the candidate path. -/
theorem extractPath_of_shape {fs : List (String × JsonVal)} {cs : List JsonVal}
    {cfs confs : List (String × JsonVal)} {p0 : JsonVal} {ps : List JsonVal}
    (h1 : fs.lookup "candidates" = some (.arr (.obj cfs :: cs)))
    (h2 : cfs.lookup "content" = some (.obj confs))
    (h3 : confs.lookup "parts" = some (.arr (p0 :: ps))) :
    extractPath (.obj fs) = some p0 := by
  simp [extractPath, h1, h2, h3]

/-- On a fully-shaped envelope the extraction chain reaches `parts[0]['text']`. -/
theorem geminiTryBody_of_path {fs : List (String × JsonVal)} {cs : List JsonVal}
    {cfs confs : List (String × JsonVal)} {p0 : JsonVal} {ps : List JsonVal}
    (h1 : fs.lookup "candidates" = some (.arr (.obj cfs :: cs)))
    (h2 : cfs.lookup "content" = some (.obj confs))
    (h3 : confs.lookup "parts" = some (.arr (p0 :: ps))) :
    geminiTryBody (.obj fs) = pyKey p0 "text" := by
  have hconfs : confs.isEmpty = false := lookup_ne_nil h3
  simp [geminiTryBody, pyGet, pyLen, pyIndex, truthyV, h1, h2, h3, hconfs]

/-- The generator returns `None` or the `text` value at the candidate path of a parsed 200 response. -/
theorem generate_value_null_or_path (k c : String) (resp : GeminiResponse) :
    generate_flashcard_content k c resp = .null ∨
    ∃ result p0, resp = .http 200 (.json result) ∧ extractPath result = some p0 ∧
      generate_flashcard_content k c resp = exceptValue (pyKey p0 "text") := by
  cases resp with
  | transportError m => left; rfl
  | http st body =>
    by_cases hst : st = 200
    · subst hst
      cases body with
      | invalid => left; rfl
      | json result =>
        rcases gemini_value_cases result with hnull | ⟨p0, ps, fs, cs, cfs, confs, rfl, h1, h2, h3⟩
        · left; simpa [generate_flashcard_content] using hnull
        · right
          exact ⟨.obj fs, p0, rfl, extractPath_of_shape h1 h2 h3,
            by simp [generate_flashcard_content, geminiTryBody_of_path h1 h2 h3]⟩
    · left; simp [generate_flashcard_content, hst]

/-- The AnkiConnect helper returns `None` or, when nothing failed, the `result` field of the response dict. -/
theorem ankiResult_cases (resp : AnkiResponse) :
    ankiResult resp = .null ∨
    ∃ fs, resp = .envelope (.obj fs) ∧ ankiFailed resp = false ∧
      ankiResult resp = (fs.lookup "result").getD .null := by
  cases resp with
  | exn m => left; rfl
  | envelope v =>
    cases v with
    | obj fs =>
      cases he : fs.lookup "error" with
      | none => right; exact ⟨fs, rfl, by simp [ankiFailed, he], by simp [ankiResult, he]⟩
      | some e =>
        by_cases ht : truthyV e = true
        · left; simp [ankiResult, he, ht]
        · right; exact ⟨fs, rfl, by simp [ankiFailed, he, ht], by simp [ankiResult, he, ht]⟩
    | null => left; rfl
    | bool b => left; rfl
    | num n => left; rfl
    | str s => left; rfl
    | arr xs => left; rfl

/-- The deck phase never issues an `addNote` request and never prints the success confirmation. -/
theorem deckPhase_events_tame (w : World) :
    ∀ e ∈ (deckPhase w).1, isAddNote e = false ∧ isSuccessPrint e = false := by
  unfold deckPhase
  simp only [anki_request]
  repeat' split
  all_goals intro e he
  all_goals
    simp only [List.mem_append, List.mem_cons, List.mem_singleton, List.mem_map,
      List.not_mem_nil, or_false, false_or] at he
  all_goals
    repeat'
      first
      | (rcases he with he | he)
      | (obtain ⟨d, hd, he⟩ := he)
  all_goals try subst he
  all_goals
    first
    | exact ⟨rfl, rfl⟩
    | (refine ⟨rfl, ?_⟩; unfold isSuccessPrint; (repeat rw [String.data_append]); rfl)
    | (obtain ⟨-, rfl⟩ := ‹_ ∧ _›; refine ⟨rfl, ?_⟩;
       unfold isSuccessPrint; (repeat rw [String.data_append]); rfl)
    | simp_all

/-- A lowercased answer other than `y` to the creation prompt aborts the deck phase. -/
theorem deckPhase_snd_of_decline (w : World) (ds : List JsonVal) (d : String)
    (hdn : ankiResult w.deckNamesResp = .arr ds)
    (hres : resolvedDeck w = some d)
    (hmem : (ds.any fun e => jsonBeq e (.str d)) = false)
    (hans : pyLower w.createAns ≠ "y") :
    (deckPhase w).2 = none := by
  unfold deckPhase
  simp only [anki_request, hdn, hres, pyIter, pyIn, hmem, hans]
  simp [hans]

/-- A `None` result from `createDeck` aborts the deck phase. -/
theorem deckPhase_snd_of_create_failure (w : World) (ds : List JsonVal) (d : String)
    (hdn : ankiResult w.deckNamesResp = .arr ds)
    (hres : resolvedDeck w = some d)
    (hmem : (ds.any fun e => jsonBeq e (.str d)) = false)
    (hans : pyLower w.createAns = "y")
    (hcd : ankiResult w.createDeckResp = .null) :
    (deckPhase w).2 = none := by
  unfold deckPhase
  simp only [anki_request, hdn, hres, pyIter, pyIn, hmem, hans, hcd]
  simp [hans, hcd]

/-- An aborted deck phase means the run never issues an `addNote` request. -/
theorem no_addNote_of_deckPhase_none (w : World) (h : (deckPhase w).2 = none) :
    ∀ p, Event.ankiCall "addNote" p ∉ create_flashcard w := by
  intro p hmem
  unfold create_flashcard at hmem
  rcases hk : get_gemini_api_key w.env with ⟨lines, keyOpt⟩
  rw [hk] at hmem
  cases keyOpt with
  | none => simp at hmem
  | some key =>
    rcases hdp : deckPhase w with ⟨devs, dopt⟩
    rw [hdp] at h hmem
    obtain rfl : dopt = none := h
    simp only [List.mem_append, List.mem_cons, List.mem_map, List.not_mem_nil,
      List.mem_singleton, List.nil_append, List.singleton_append, false_or, or_false,
      reduceCtorEq, exists_false, exists_and_right, and_false, false_and] at hmem
    have := (deckPhase_events_tame w (Event.ankiCall "addNote" p) (by rw [hdp]; exact hmem)).1
    simp [isAddNote] at this

/-- When a key is returned, nothing was printed. -/
theorem get_gemini_api_key_some {env : Option String} {key : String}
    (h : (get_gemini_api_key env).2 = some key) :
    get_gemini_api_key env = ([], some key) := by
  unfold get_gemini_api_key at h ⊢
  cases env with
  | none => simp at h
  | some k =>
    by_cases hk : k = ""
    · simp [hk] at h
    · simp [hk] at h ⊢
      exact h

/-- Inversion of a run that issued an `addNote` request: the key resolved, the deck phase succeeded, the generated content was truthy, the submitted note is the one built from the run inputs, and the whole trace has the stated shape. -/
theorem create_flashcard_reached (w : World) (p : JsonVal)
    (h : Event.ankiCall "addNote" p ∈ create_flashcard w) :
    ∃ key deck_name devs,
      get_gemini_api_key w.env = ([], some key) ∧
      deckPhase w = (devs, some deck_name) ∧
      truthyV (generate_flashcard_content key w.conceptInput w.geminiResp) = true ∧
      p = .obj [("note", mkNote deck_name w.conceptInput
            (generate_flashcard_content key w.conceptInput w.geminiResp)
            (normalizeTags w.tagsInput))] ∧
      create_flashcard w =
        [Event.print "--- AI-Powered Anki Flashcard Adder ---"] ++ devs ++
        [Event.prompt "\nEnter the word or concept for the flashcard: ",
         Event.print ("\nGenerating definition and example for '" ++ w.conceptInput ++ "' using Gemini..."),
         Event.geminiCall w.conceptInput,
         Event.prompt "Enter tags for the card (comma-separated, optional): ",
         Event.ankiCall "addNote" p] ++
        (if ankiFailed w.addNoteResp then
           [Event.print ("Error communicating with AnkiConnect: " ++ ankiErrMsg w.addNoteResp),
            Event.print "Please ensure Anki is running and the AnkiConnect add-on is installed and configured correctly."]
         else []) ++
        (if truthyV (ankiResult w.addNoteResp) then
           [Event.print ("\nSuccessfully added card to '" ++ deck_name ++ "'!"),
            Event.print ("  Front: " ++ w.conceptInput),
            Event.print ("  Back Content (HTML): \n" ++
              displayVal (generate_flashcard_content key w.conceptInput w.geminiResp)),
            Event.print ("  Tags: " ++ String.intercalate ", " (normalizeTags w.tagsInput))]
         else [Event.print "\nFailed to add the card. Check for errors above."]) := by
  have hmem := h
  unfold create_flashcard at hmem ⊢
  rcases hk : get_gemini_api_key w.env with ⟨lines, keyOpt⟩
  rw [hk] at hmem
  cases keyOpt with
  | none => simp at hmem
  | some key =>
    have hk0 : get_gemini_api_key w.env = ([], some key) :=
      get_gemini_api_key_some (by rw [hk])
    have hlines : lines = [] := by
      rw [hk0] at hk
      exact (Prod.mk.injEq _ _ _ _ ▸ hk.symm).1
    subst hlines
    rcases hdp : deckPhase w with ⟨devs, dopt⟩
    rw [hdp] at hmem
    cases dopt with
    | none =>
      simp only [List.mem_append, List.mem_cons, List.mem_map, List.not_mem_nil,
        List.mem_singleton, List.nil_append, List.singleton_append, false_or, or_false,
        reduceCtorEq, exists_false, exists_and_right, and_false, false_and,
        List.map_nil] at hmem
      have := (deckPhase_events_tame w (Event.ankiCall "addNote" p) (by rw [hdp]; exact hmem)).1
      simp [isAddNote] at this
    | some deck_name =>
      refine ⟨key, deck_name, devs, rfl, rfl, ?_⟩
      unfold notePhase at hmem
      by_cases htr : truthyV (generate_flashcard_content key w.conceptInput w.geminiResp) = true
      · cases haf : ankiFailed w.addNoteResp <;> cases hav : truthyV (ankiResult w.addNoteResp)
        all_goals
          simp only [htr, if_true, anki_request, haf, hav, Bool.false_eq_true, if_false,
            List.nil_append, List.append_nil, List.singleton_append, List.cons_append,
            List.mem_append, List.mem_cons, List.not_mem_nil,
            reduceCtorEq, false_or, or_false, Event.ankiCall.injEq, true_and,
            List.mem_map, exists_false, and_false, false_and, List.map_nil] at hmem
        all_goals
          rcases hmem with hdevs | hp
          · exact absurd ((deckPhase_events_tame w (Event.ankiCall "addNote" p)
              (by rw [hdp]; exact hdevs)).1) (by simp [isAddNote])
          · refine ⟨htr, hp, ?_⟩
            simp only [notePhase, htr, if_true, anki_request, haf, hav, hp,
              Bool.false_eq_true, if_false]
            simp [List.append_assoc]
      · simp only [Bool.not_eq_true] at htr
        simp only [htr, Bool.false_eq_true, if_false] at hmem
        simp only [List.mem_append, List.mem_cons, List.mem_map, List.not_mem_nil,
          List.mem_singleton, List.nil_append, List.singleton_append, false_or, or_false,
          reduceCtorEq, exists_false, exists_and_right, and_false, false_and,
          List.map_nil] at hmem
        exact absurd ((deckPhase_events_tame w (Event.ankiCall "addNote" p)
          (by rw [hdp]; exact hmem)).1) (by simp [isAddNote])

/-- With a key present, a run is the banner, the deck-phase events, and some tail. -/
theorem create_flashcard_split (w : World) (key : String)
    (hk : get_gemini_api_key w.env = ([], some key)) :
    ∃ tail, create_flashcard w =
      [Event.print "--- AI-Powered Anki Flashcard Adder ---"] ++ (deckPhase w).1 ++ tail := by
  unfold create_flashcard
  rw [hk]
  rcases hdp : deckPhase w with ⟨devs, dopt⟩
  cases dopt with
  | none => exact ⟨[], by simp⟩
  | some dn => exact ⟨notePhase w key dn, by simp⟩

/-- With the first answer not `y` and the second not `n`, `deck_name` is never bound: the deck phase shows the favourite prompt twice and ends with the caught `NameError`. -/
theorem deckPhase_unbound (w : World) (ds : List JsonVal)
    (hdn : ankiResult w.deckNamesResp = .arr ds)
    (h1 : w.ans1 ≠ "y") (h2 : w.ans2 ≠ "n") :
    deckPhase w =
      ((anki_request "deckNames" (.obj []) w.deckNamesResp).2.1 ++
        [Event.print "\nAvailable Decks:"] ++
        (ds.map fun d => Event.print ("- " ++ displayVal d)) ++
        [Event.prompt "\nAI_Adder?", Event.prompt "\nAI_Adder?",
         Event.print "An error occurred while handling decks: name 'deck_name' is not defined"],
       none) := by
  have hres : resolvedDeck w = none := by simp [resolvedDeck, h1, h2]
  unfold deckPhase
  simp [hdn, pyIter, hres, h1, h2, List.append_assoc]

/-- With the second answer `n`, the favourite prompt is shown twice and the free-text deck prompt follows. -/
theorem deckPhase_free_text (w : World) (ds : List JsonVal)
    (hdn : ankiResult w.deckNamesResp = .arr ds)
    (h1 : w.ans1 ≠ "y") (h2 : w.ans2 = "n") :
    ∃ rest q, deckPhase w =
      ((anki_request "deckNames" (.obj []) w.deckNamesResp).2.1 ++
        [Event.print "\nAvailable Decks:"] ++
        (ds.map fun d => Event.print ("- " ++ displayVal d)) ++
        [Event.prompt "\nAI_Adder?", Event.prompt "\nAI_Adder?",
         Event.prompt "\nEnter the name of the deck to add the card to: "] ++ rest, q) := by
  have hres : resolvedDeck w = some w.deckInput := by simp [resolvedDeck, h1, h2]
  unfold deckPhase
  simp only [hdn, pyIter, hres, h1, h2, if_neg, if_pos, anki_request]
  repeat' split
  all_goals try (exact False.elim (by assumption))
  all_goals simp only [List.append_assoc, List.cons_append, List.nil_append,
    List.singleton_append, List.append_nil]
  all_goals exact ⟨_, _, rfl⟩

/-- The head of `dropWhile p` fails `p`. -/
theorem dropWhile_head_not {α : Type} (p : α → Bool) (l : List α) :
    ∀ a, (l.dropWhile p).head? = some a → p a = false := by
  induction l with
  | nil => intro a ha; simp at ha
  | cons x xs ih =>
    intro a ha
    by_cases hx : p x = true
    · rw [List.dropWhile_cons_of_pos hx] at ha
      exact ih a ha
    · rw [List.dropWhile_cons_of_neg hx] at ha
      simp at ha
      rw [← ha]
      simpa using hx

/-- A list whose head fails `p` is unchanged by `dropWhile p`. -/
theorem dropWhile_eq_self_of_head {α : Type} (p : α → Bool) (l : List α)
    (h : ∀ a, l.head? = some a → p a = false) : l.dropWhile p = l := by
  cases l with
  | nil => rfl
  | cons x xs =>
    rw [List.dropWhile_cons, h x rfl]
    simp

/-- Stripping is a prefix of the front-trimmed list. -/
theorem stripL_prefixOf (l : List Char) : stripL l <+: l.dropWhile pySpace := by
  have h : ((l.dropWhile pySpace).reverse.dropWhile pySpace).reverse <+:
      (l.dropWhile pySpace).reverse.reverse :=
    List.reverse_prefix.mpr (List.dropWhile_suffix pySpace)
  rw [List.reverse_reverse] at h
  exact h

/-- A stripped list does not start with whitespace. -/
theorem stripL_head_not (l : List Char) :
    ∀ a, (stripL l).head? = some a → pySpace a = false := by
  intro a ha
  obtain ⟨t, ht⟩ := stripL_prefixOf l
  apply dropWhile_head_not pySpace l a
  rw [← ht, List.head?_append_of_ne_nil, ha]
  intro hnil
  rw [hnil] at ha
  simp at ha

/-- Stripping is idempotent. -/
theorem stripL_idem (l : List Char) : stripL (stripL l) = stripL l := by
  have h1 : (stripL l).dropWhile pySpace = stripL l :=
    dropWhile_eq_self_of_head pySpace (stripL l) (stripL_head_not l)
  have h2 : (stripL l).reverse.dropWhile pySpace = (stripL l).reverse := by
    apply dropWhile_eq_self_of_head
    intro a ha
    unfold stripL at ha
    rw [List.reverse_reverse] at ha
    exact dropWhile_head_not pySpace (l.dropWhile pySpace).reverse a ha
  show (((stripL l).dropWhile pySpace).reverse.dropWhile pySpace).reverse = stripL l
  rw [h1, h2, List.reverse_reverse]

/-- Splitting on commas always yields at least one piece. -/
theorem splitCommaL_ne_nil (l : List Char) : splitCommaL l ≠ [] := by
  induction l with
  | nil => simp [splitCommaL]
  | cons c rest ih =>
    unfold splitCommaL
    cases h : splitCommaL rest with
    | nil => exact absurd h ih
    | cons p ps =>
      dsimp only
      split <;> simp

/-- No piece of a comma split contains a comma. -/
theorem splitCommaL_no_comma (l : List Char) :
    ∀ piece ∈ splitCommaL l, ',' ∉ piece := by
  induction l with
  | nil =>
    intro piece hp
    simp [splitCommaL] at hp
    subst hp
    simp
  | cons c rest ih =>
    intro piece hp
    unfold splitCommaL at hp
    cases h : splitCommaL rest with
    | nil => exact absurd h (splitCommaL_ne_nil rest)
    | cons p ps =>
      rw [h] at hp
      dsimp only at hp
      by_cases hc : c = ','
      · rw [if_pos hc, List.mem_cons] at hp
        rcases hp with rfl | hp
        · simp
        · exact ih piece (by rw [h]; exact hp)
      · rw [if_neg hc, List.mem_cons] at hp
        rcases hp with rfl | hp
        · intro hmem
          rw [List.mem_cons] at hmem
          rcases hmem with hmem | hmem
          · exact hc hmem.symm
          · exact ih p (by rw [h]; exact List.mem_cons_self p ps) hmem
        · exact ih piece (by rw [h]; exact List.mem_cons_of_mem p hp)

/-- A comma-free list splits into itself. -/
theorem splitCommaL_of_no_comma (l : List Char) (h : ',' ∉ l) : splitCommaL l = [l] := by
  induction l with
  | nil => rfl
  | cons c cs ih =>
    have hc : c ≠ ',' := fun hcc => h (hcc ▸ List.mem_cons_self c cs)
    have hcs : ',' ∉ cs := fun hm => h (List.mem_cons_of_mem c hm)
    rw [show splitCommaL (c :: cs) =
      (match splitCommaL cs with
       | [] => []
       | piece :: pieces =>
         if c = ',' then [] :: piece :: pieces else (c :: piece) :: pieces) from rfl]
    rw [ih hcs]
    dsimp only
    rw [if_neg hc]

/-- Splitting distributes over a comma-free piece followed by a comma. -/
theorem splitCommaL_append (p l : List Char) (hp : ',' ∉ p) :
    splitCommaL (p ++ ',' :: l) = p :: splitCommaL l := by
  induction p with
  | nil =>
    rw [List.nil_append]
    cases h : splitCommaL l with
    | nil => exact absurd h (splitCommaL_ne_nil l)
    | cons q qs =>
      rw [show splitCommaL (',' :: l) =
        (match splitCommaL l with
         | [] => []
         | piece :: pieces =>
           if ',' = ',' then [] :: piece :: pieces else (',' :: piece) :: pieces) from rfl]
      rw [h]
      simp
  | cons c cs ih =>
    have hc : c ≠ ',' := fun hcc => hp (hcc ▸ List.mem_cons_self c cs)
    have hcs : ',' ∉ cs := fun hm => hp (List.mem_cons_of_mem c hm)
    rw [List.cons_append]
    rw [show splitCommaL (c :: (cs ++ ',' :: l)) =
      (match splitCommaL (cs ++ ',' :: l) with
       | [] => []
       | piece :: pieces =>
         if c = ',' then [] :: piece :: pieces else (c :: piece) :: pieces) from rfl]
    rw [ih hcs]
    simp [hc]

/-- Splitting is a left inverse of joining comma-free pieces. -/
theorem splitCommaL_joinCommaL (ts : List (List Char)) (hts : ts ≠ [])
    (hcf : ∀ t ∈ ts, ',' ∉ t) : splitCommaL (joinCommaL ts) = ts := by
  induction ts with
  | nil => exact absurd rfl hts
  | cons t us ih =>
    cases us with
    | nil =>
      rw [show joinCommaL [t] = t from rfl]
      exact splitCommaL_of_no_comma t (hcf t (List.mem_cons_self t []))
    | cons u vs =>
      rw [show joinCommaL (t :: u :: vs) = t ++ ',' :: joinCommaL (u :: vs) from rfl]
      rw [splitCommaL_append t _ (hcf t (List.mem_cons_self t (u :: vs)))]
      rw [ih (by simp) (fun x hx => hcf x (List.mem_cons_of_mem t hx))]

/-- Stripping keeps only characters of the original list. -/
theorem mem_of_mem_stripL {a : Char} (l : List Char) (h : a ∈ stripL l) : a ∈ l :=
  (List.dropWhile_suffix pySpace).subset ((stripL_prefixOf l).subset h)

/-- Every normalized tag is non-empty, stripped, and comma-free. -/
theorem normTagsL_mem (l : List Char) :
    ∀ t ∈ normTagsL l, t ≠ [] ∧ stripL t = t ∧ ',' ∉ t := by
  intro t ht
  unfold normTagsL at ht
  rw [List.mem_filter] at ht
  obtain ⟨hmap, hne⟩ := ht
  rw [List.mem_map] at hmap
  obtain ⟨piece, hpiece, rfl⟩ := hmap
  refine ⟨by simpa using hne, stripL_idem piece, ?_⟩
  intro hc
  exact splitCommaL_no_comma l piece hpiece (mem_of_mem_stripL piece hc)

/-- Normalizing, joining with commas, and normalizing again is the identity on the normalized list. -/
theorem normTagsL_join_normTagsL (l : List Char) :
    normTagsL (joinCommaL (normTagsL l)) = normTagsL l := by
  cases h : normTagsL l with
  | nil => rfl
  | cons t ts =>
    have hall := normTagsL_mem l
    rw [h] at hall
    have hsplit : splitCommaL (joinCommaL (t :: ts)) = t :: ts :=
      splitCommaL_joinCommaL (t :: ts) (by simp) (fun x hx => (hall x hx).2.2)
    unfold normTagsL
    rw [hsplit]
    have hmap : (t :: ts).map stripL = (t :: ts).map id :=
      List.map_congr_left (fun x hx => (hall x hx).2.1)
    rw [hmap, List.map_id]
    exact List.filter_eq_self.mpr (fun x hx => by simpa using (hall x hx).1)

/-- The characters of the re-joined tags are the comma join of the normalized pieces. -/
theorem joinTags_normalizeTags_data (s : String) :
    (joinTags (normalizeTags s)).data = joinCommaL (normTagsL s.data) := by
  unfold joinTags normalizeTags
  congr 1
  rw [List.map_map]
  have hid : (String.data ∘ fun t => String.mk t) = id := rfl
  rw [hid, List.map_id]

/-- The `"a, a, b"`-tags world reaches `addNote` with the duplicate-tag note. -/
theorem C8world_mem_addNote :
    Event.ankiCall "addNote" (.obj [("note", C8note)]) ∈ create_flashcard C8world := by
  have h : create_flashcard C8world =
    [Event.print "--- AI-Powered Anki Flashcard Adder ---",
     Event.ankiCall "deckNames" (.obj []),
     Event.print "\nAvailable Decks:",
     Event.print "- Default",
     Event.prompt "\nAI_Adder?",
     Event.prompt "Deck 'AI_Adder' does not exist. Create it? (y/n): ",
     Event.ankiCall "createDeck" (.obj [("deck", .str "AI_Adder")]),
     Event.print "Deck 'AI_Adder' created successfully.",
     Event.prompt "\nEnter the word or concept for the flashcard: ",
     Event.print "\nGenerating definition and example for 'ubiquitous' using Gemini...",
     Event.geminiCall "ubiquitous",
     Event.prompt "Enter tags for the card (comma-separated, optional): ",
     Event.ankiCall "addNote" (.obj [("note", C8note)]),
     Event.print "\nSuccessfully added card to 'AI_Adder'!",
     Event.print "  Front: ubiquitous",
     Event.print "  Back Content (HTML): \n<p>Def</p><i>Example</i>",
     Event.print "  Tags: a, a, b"] := rfl
  rw [h]; simp

/-- C1: in the end-to-end scenario (key present, deck list `["Default"]`,
favourite deck `"AI_Adder"` selected and created successfully, concept
`"ubiquitous"`, generator text `"<p>Def</p><i>Example</i>"`, tags input
`"vocab, gre"`), the single `addNote` request submits exactly the note with
`deckName "AI_Adder"`, `modelName "Basic"`, fields `Front "ubiquitous"` and
`Back "<p>Def</p><i>Example</i>"` verbatim and tags `["vocab", "gre"]`
(alongside the request's fixed duplicate options), and the success
confirmation printed contains the deck name, the front, the back HTML and the
tags. -/
theorem c1_end_to_end_scenario :
    (create_flashcard C1world).filter isAddNote =
      [Event.ankiCall "addNote" (.obj [("note", C1note)])] ∧
    C1note = mkNote "AI_Adder" "ubiquitous" (.str "<p>Def</p><i>Example</i>") ["vocab", "gre"] ∧
    Event.print "\nSuccessfully added card to 'AI_Adder'!" ∈ create_flashcard C1world ∧
    Event.print "  Front: ubiquitous" ∈ create_flashcard C1world ∧
    Event.print "  Back Content (HTML): \n<p>Def</p><i>Example</i>" ∈ create_flashcard C1world ∧
    Event.print "  Tags: vocab, gre" ∈ create_flashcard C1world := by
  have h : create_flashcard C1world =
    [Event.print "--- AI-Powered Anki Flashcard Adder ---",
     Event.ankiCall "deckNames" (.obj []),
     Event.print "\nAvailable Decks:",
     Event.print "- Default",
     Event.prompt "\nAI_Adder?",
     Event.prompt "Deck 'AI_Adder' does not exist. Create it? (y/n): ",
     Event.ankiCall "createDeck" (.obj [("deck", .str "AI_Adder")]),
     Event.print "Deck 'AI_Adder' created successfully.",
     Event.prompt "\nEnter the word or concept for the flashcard: ",
     Event.print "\nGenerating definition and example for 'ubiquitous' using Gemini...",
     Event.geminiCall "ubiquitous",
     Event.prompt "Enter tags for the card (comma-separated, optional): ",
     Event.ankiCall "addNote" (.obj [("note", C1note)]),
     Event.print "\nSuccessfully added card to 'AI_Adder'!",
     Event.print "  Front: ubiquitous",
     Event.print "  Back Content (HTML): \n<p>Def</p><i>Example</i>",
     Event.print "  Tags: vocab, gre"] := rfl
  refine ⟨rfl, rfl, ?_, ?_, ?_, ?_⟩ <;> rw [h] <;> simp

/-- C2: for every concept string and API key, a 200 response whose well-formed JSON envelope carries at least one candidate with at least one part makes `generate_flashcard_content` return exactly the string `candidates[0].content.parts[0].text`, byte for byte, with no transformation. -/
theorem c2_text_passthrough (api_key concept : String)
    (fs cfs confs p0fs : List (String × JsonVal)) (cs ps : List JsonVal) (s : String)
    (h1 : fs.lookup "candidates" = some (.arr (.obj cfs :: cs)))
    (h2 : cfs.lookup "content" = some (.obj confs))
    (h3 : confs.lookup "parts" = some (.arr (.obj p0fs :: ps)))
    (h4 : p0fs.lookup "text" = some (.str s)) :
    generate_flashcard_content api_key concept (.http 200 (.json (.obj fs))) = .str s := by
  simp [generate_flashcard_content, geminiTryBody_of_path h1 h2 h3, pyKey, h4, exceptValue]

/-- Witness for C2 at a concrete envelope. -/
theorem c2_text_passthrough_witness :
    generate_flashcard_content "k" "ubiquitous"
      (.http 200 (.json (geminiEnvelopeOf "<p>Def</p>"))) = .str "<p>Def</p>" :=
  c2_text_passthrough "k" "ubiquitous" _ _ _ _ _ _ _ rfl rfl rfl rfl

/-- C3: the content generator yields an absent result (`None`) when the API key is absent from the environment, when the HTTP call raises a transport error, when the response status is not 200, when the body is not valid JSON, and when the `candidates[0].content.parts[0]` path is missing from the parsed response; failure is only ever signalled by the absent result, never by partially-parsed data. -/
theorem c3_generator_failure_modes :
    (∀ concept resp, generatorPipeline none concept resp = .null) ∧
    (∀ api_key concept msg,
       generate_flashcard_content api_key concept (.transportError msg) = .null) ∧
    (∀ api_key concept st body, st ≠ 200 →
       generate_flashcard_content api_key concept (.http st body) = .null) ∧
    (∀ api_key concept st,
       generate_flashcard_content api_key concept (.http st .invalid) = .null) ∧
    (∀ api_key concept result, extractPath result = none →
       generate_flashcard_content api_key concept (.http 200 (.json result)) = .null) := by
  refine ⟨fun _ _ => rfl, fun _ _ _ => rfl, ?_, ?_, ?_⟩
  · intro k c st body hst
    simp [generate_flashcard_content, hst]
  · intro k c st
    by_cases hst : st = 200 <;> simp [generate_flashcard_content, hst]
  · intro k c result h
    rcases gemini_value_cases result with hnull | ⟨p0, ps, fs, cs, cfs, confs, rfl, h1, h2, h3⟩
    · simpa [generate_flashcard_content] using hnull
    · exact absurd (extractPath_of_shape h1 h2 h3) (by simp [h])

/-- Witness for C3 at concrete failing inputs. -/
theorem c3_generator_failure_modes_witness :
    (500 ≠ 200) ∧ extractPath (.obj []) = none ∧
    generatorPipeline none "c" (.transportError "e") = .null ∧
    generate_flashcard_content "k" "c" (.http 500 (.json (.obj []))) = .null ∧
    generate_flashcard_content "k" "c" (.http 200 (.json (.obj []))) = .null :=
  ⟨by decide, rfl, c3_generator_failure_modes.1 "c" (.transportError "e"),
   c3_generator_failure_modes.2.2.1 "k" "c" 500 (.json (.obj [])) (by decide),
   c3_generator_failure_modes.2.2.2.2 "k" "c" (.obj []) rfl⟩

/-- C4: for every action and parameter mapping, `anki_request` sends a single request to the fixed loopback endpoint with the envelope `{action, version: 6, params}`; a non-empty `error` field makes it raise internally, catch the failure, print a message and return `None`; otherwise it returns exactly the `result` field of the response envelope. -/
theorem c4_anki_request_envelope_and_errors (action : String) (params : JsonVal)
    (resp : AnkiResponse) :
    (anki_request action params resp).1 = (ankiURL, ankiEnvelope action params) ∧
    (anki_request action params resp).2.1.filter isAnkiCallEvent =
      [Event.ankiCall action params] ∧
    (∀ fs e, resp = .envelope (.obj fs) → fs.lookup "error" = some e → truthyV e = true →
       (anki_request action params resp).2.2 = .null ∧
       Event.print ("Error communicating with AnkiConnect: " ++ displayVal e) ∈
         (anki_request action params resp).2.1) ∧
    (∀ fs, resp = .envelope (.obj fs) → ankiFailed resp = false →
       (anki_request action params resp).2.2 = (fs.lookup "result").getD .null) := by
  refine ⟨rfl, ?_, ?_, ?_⟩
  · cases hf : ankiFailed resp <;> simp [anki_request, isAnkiCallEvent, hf]
  · rintro fs e rfl he ht
    constructor
    · simp [anki_request, ankiResult, he, ht]
    · simp [anki_request, ankiFailed, ankiErrMsg, he, ht]
  · rintro fs rfl hfail
    cases he : fs.lookup "error" with
    | none => simp [anki_request, ankiResult, he]
    | some e =>
      have ht : truthyV e = false := by simpa [ankiFailed, he] using hfail
      simp [anki_request, ankiResult, he, ht]

/-- Witness for C4 at a failing and a succeeding response. -/
theorem c4_anki_request_envelope_and_errors_witness :
    ((anki_request "addNote" (.obj []) (.envelope (.obj [("error", .str "dup")]))).2.2 = .null ∧
     Event.print ("Error communicating with AnkiConnect: " ++ displayVal (.str "dup")) ∈
       (anki_request "addNote" (.obj []) (.envelope (.obj [("error", .str "dup")]))).2.1) ∧
    (anki_request "deckNames" (.obj [])
        (.envelope (.obj [("result", .arr [.str "Default"])]))).2.2 =
      ((([("result", JsonVal.arr [.str "Default"])] : List (String × JsonVal)).lookup
        "result").getD .null) :=
  ⟨(c4_anki_request_envelope_and_errors "addNote" (.obj [])
      (.envelope (.obj [("error", .str "dup")]))).2.2.1 _ _ rfl rfl rfl,
   (c4_anki_request_envelope_and_errors "deckNames" (.obj [])
      (.envelope (.obj [("result", .arr [.str "Default"])]))).2.2.2 _ rfl rfl⟩

/-- C5 counterexample: in the end-to-end world whose creation answer is `\"Y\"` — not the literal `\"y\"` — the deck is absent from the fetched list, yet an `addNote` request is issued, because the code lowercases the answer before comparing. -/
theorem c5_counterexample :
    C5badWorld.createAns = "Y" ∧ "Y" ≠ "y" ∧
    ankiResult C5badWorld.deckNamesResp = .arr [.str "Default"] ∧
    resolvedDeck C5badWorld = some "AI_Adder" ∧
    (([.str "Default"] : List JsonVal).any fun e => jsonBeq e (.str "AI_Adder")) = false ∧
    Event.ankiCall "addNote" (.obj [("note", C1note)]) ∈ create_flashcard C5badWorld := by
  refine ⟨rfl, by decide, rfl, rfl, rfl, ?_⟩
  have h : create_flashcard C5badWorld =
    [Event.print "--- AI-Powered Anki Flashcard Adder ---",
     Event.ankiCall "deckNames" (.obj []),
     Event.print "\nAvailable Decks:",
     Event.print "- Default",
     Event.prompt "\nAI_Adder?",
     Event.prompt "Deck 'AI_Adder' does not exist. Create it? (y/n): ",
     Event.ankiCall "createDeck" (.obj [("deck", .str "AI_Adder")]),
     Event.print "Deck 'AI_Adder' created successfully.",
     Event.prompt "\nEnter the word or concept for the flashcard: ",
     Event.print "\nGenerating definition and example for 'ubiquitous' using Gemini...",
     Event.geminiCall "ubiquitous",
     Event.prompt "Enter tags for the card (comma-separated, optional): ",
     Event.ankiCall "addNote" (.obj [("note", C1note)]),
     Event.print "\nSuccessfully added card to 'AI_Adder'!",
     Event.print "  Front: ubiquitous",
     Event.print "  Back Content (HTML): \n<p>Def</p><i>Example</i>",
     Event.print "  Tags: vocab, gre"] := rfl
  rw [h]; simp

/-- C5 (amended): when the resolved deck name is absent from the fetched deck list and the user's answer to the creation prompt, lowercased, is not `y`, no `addNote` request is ever issued; likewise when `createDeck` returns an absent result. -/
theorem c5_decline_aborts_addnote (w : World) (ds : List JsonVal) (d : String)
    (hdn : ankiResult w.deckNamesResp = .arr ds)
    (hres : resolvedDeck w = some d)
    (hmem : (ds.any fun e => jsonBeq e (.str d)) = false) :
    (pyLower w.createAns ≠ "y" → ∀ p, Event.ankiCall "addNote" p ∉ create_flashcard w) ∧
    (ankiResult w.createDeckResp = .null →
       ∀ p, Event.ankiCall "addNote" p ∉ create_flashcard w) := by
  constructor
  · intro hans
    exact no_addNote_of_deckPhase_none w (deckPhase_snd_of_decline w ds d hdn hres hmem hans)
  · intro hcd
    by_cases hans : pyLower w.createAns = "y"
    · exact no_addNote_of_deckPhase_none w
        (deckPhase_snd_of_create_failure w ds d hdn hres hmem hans hcd)
    · exact no_addNote_of_deckPhase_none w (deckPhase_snd_of_decline w ds d hdn hres hmem hans)

/-- Witness for the amended C5 at a concrete declining world. -/
theorem c5_decline_aborts_addnote_witness :
    Event.ankiCall "addNote" (.obj [("note", C1note)]) ∉ create_flashcard C5world :=
  (c5_decline_aborts_addnote C5world [.str "Default"] "AI_Adder" rfl rfl rfl).1
    (by decide) (.obj [("note", C1note)])

/-- C6: every note submitted via `addNote` carries the options `allowDuplicate = false` with `duplicateScope = \"deck\"`, and when `addNote` yields an absent result — as on a duplicate rejection — a run that reached `addNote` prints the failure report and never the success confirmation. -/
theorem c6_duplicate_note_failure (w : World) :
    (∀ p, Event.ankiCall "addNote" p ∈ create_flashcard w →
       ∃ note, p = .obj [("note", note)] ∧ pyKey note "options" = .ok ankiOptions) ∧
    (ankiResult w.addNoteResp = .null →
       ∀ p, Event.ankiCall "addNote" p ∈ create_flashcard w →
         Event.print "\nFailed to add the card. Check for errors above." ∈ create_flashcard w ∧
         ∀ e ∈ create_flashcard w, isSuccessPrint e = false) := by
  constructor
  · intro p hp
    obtain ⟨key, dn, devs, hk, hdp, htr, hpe, heq⟩ := create_flashcard_reached w p hp
    exact ⟨_, hpe, rfl⟩
  · intro hnull p hp
    obtain ⟨key, dn, devs, hk, hdp, htr, hpe, heq⟩ := create_flashcard_reached w p hp
    have hav : truthyV (ankiResult w.addNoteResp) = false := by rw [hnull]; rfl
    constructor
    · rw [heq]
      simp [hav]
    · rw [heq]
      cases haf : ankiFailed w.addNoteResp
      all_goals
        simp only [haf, hav, Bool.false_eq_true, if_false, if_true,
          List.nil_append, List.singleton_append, List.cons_append, List.append_nil,
          List.forall_mem_append, List.forall_mem_cons] at hpe ⊢
      all_goals repeat' constructor
      all_goals
        first
        | rfl
        | (intro e he; exact (deckPhase_events_tame w e (by rw [hdp]; exact he)).2)
        | (unfold isSuccessPrint; (repeat rw [String.data_append]); rfl)
        | trivial
        | simp_all

/-- Witness for C6 at the duplicate-rejection world. -/
theorem c6_duplicate_note_failure_witness :
    ankiResult C6world.addNoteResp = .null ∧
    (∃ note, (JsonVal.obj [("note", C1note)] : JsonVal) = .obj [("note", note)] ∧
       pyKey note "options" = .ok ankiOptions) ∧
    Event.print "\nFailed to add the card. Check for errors above." ∈ create_flashcard C6world := by
  have hmem : Event.ankiCall "addNote" (.obj [("note", C1note)]) ∈ create_flashcard C6world := by
    have h : create_flashcard C6world =
      [Event.print "--- AI-Powered Anki Flashcard Adder ---",
       Event.ankiCall "deckNames" (.obj []),
       Event.print "\nAvailable Decks:",
       Event.print "- Default",
       Event.prompt "\nAI_Adder?",
       Event.prompt "Deck 'AI_Adder' does not exist. Create it? (y/n): ",
       Event.ankiCall "createDeck" (.obj [("deck", .str "AI_Adder")]),
       Event.print "Deck 'AI_Adder' created successfully.",
       Event.prompt "\nEnter the word or concept for the flashcard: ",
       Event.print "\nGenerating definition and example for 'ubiquitous' using Gemini...",
       Event.geminiCall "ubiquitous",
       Event.prompt "Enter tags for the card (comma-separated, optional): ",
       Event.ankiCall "addNote" (.obj [("note", C1note)]),
       Event.print "Error communicating with AnkiConnect: cannot create note because it is a duplicate",
       Event.print "Please ensure Anki is running and the AnkiConnect add-on is installed and configured correctly.",
       Event.print "\nFailed to add the card. Check for errors above."] := rfl
    rw [h]; simp
  exact ⟨rfl, (c6_duplicate_note_failure C6world).1 _ hmem,
    ((c6_duplicate_note_failure C6world).2 rfl _ hmem).1⟩

/-- C7: tag normalization splits on commas, trims each piece and drops empty pieces; `\"a, b ,, c\"` yields `[\"a\",\"b\",\"c\"]`, and re-joining any normalized list with commas and normalizing again yields the same list. -/
theorem c7_tag_normalization_idempotent :
    normalizeTags "a, b ,, c" = ["a", "b", "c"] ∧
    ∀ s : String, normalizeTags (joinTags (normalizeTags s)) = normalizeTags s := by
  constructor
  · rfl
  · intro s
    show (normTagsL (joinTags (normalizeTags s)).data).map (fun t => String.mk t) =
      normalizeTags s
    rw [joinTags_normalizeTags_data s, normTagsL_join_normTagsL]
    rfl

/-- C8 counterexample: the tags input `\"a, a, b\"` puts the tags `[\"a\",\"a\",\"b\"]` — with a repeated element — on the submitted note: duplicates are not removed. -/
theorem c8_counterexample :
    C8world.tagsInput = "a, a, b" ∧
    normalizeTags "a, a, b" = ["a", "a", "b"] ∧
    Event.ankiCall "addNote" (.obj [("note", C8note)]) ∈ create_flashcard C8world ∧
    ¬ (["a", "a", "b"] : List String).Nodup :=
  ⟨rfl, rfl, C8world_mem_addNote, by decide⟩

/-- C8 (amended): the tags carried by every submitted note are exactly the normalized input tags — each whitespace-trimmed and non-empty — but duplicates are preserved, in input order, rather than removed. -/
theorem c8_tags_trimmed_not_dedup (w : World) (p : JsonVal)
    (h : Event.ankiCall "addNote" p ∈ create_flashcard w) :
    (∃ key deck_name, p = .obj [("note", mkNote deck_name w.conceptInput
        (generate_flashcard_content key w.conceptInput w.geminiResp)
        (normalizeTags w.tagsInput))]) ∧
    ∀ t ∈ normalizeTags w.tagsInput, t ≠ "" ∧ stripL t.data = t.data := by
  obtain ⟨key, dn, devs, hk, hdp, htr, hpe, heq⟩ := create_flashcard_reached w p h
  refine ⟨⟨key, dn, hpe⟩, ?_⟩
  intro t ht
  unfold normalizeTags at ht
  rw [List.mem_map] at ht
  obtain ⟨u, hu, rfl⟩ := ht
  obtain ⟨hne, hstrip, -⟩ := normTagsL_mem w.tagsInput.data u hu
  exact ⟨fun hc => hne (congrArg String.data hc), hstrip⟩

/-- Witness for the amended C8 at the duplicate-tags world. -/
theorem c8_tags_trimmed_not_dedup_witness :
    (∃ key deck_name, (JsonVal.obj [("note", C8note)] : JsonVal) =
       .obj [("note", mkNote deck_name C8world.conceptInput
         (generate_flashcard_content key C8world.conceptInput C8world.geminiResp)
         (normalizeTags C8world.tagsInput))]) ∧
    ∀ t ∈ normalizeTags C8world.tagsInput, t ≠ "" ∧ stripL t.data = t.data :=
  c8_tags_trimmed_not_dedup C8world (.obj [("note", C8note)]) C8world_mem_addNote

/-- C9: with the deck list fetched, answering other than `y` to the first favourite-deck prompt and other than `n` to the second leaves `deck_name` unbound, so the membership test raises the caught `NameError`; and an answer of `n` to the first prompt makes the same prompt text appear a second time, immediately followed — when the second answer is `n` — by the free-text deck-name prompt. -/
theorem c9_prompt_bug (w : World) (key : String) (ds : List JsonVal)
    (hk : get_gemini_api_key w.env = ([], some key))
    (hdn : ankiResult w.deckNamesResp = .arr ds) :
    (w.ans1 ≠ "y" → w.ans2 ≠ "n" →
       resolvedDeck w = none ∧
       Event.print "An error occurred while handling decks: name 'deck_name' is not defined"
         ∈ create_flashcard w) ∧
    (w.ans1 = "n" →
       (∃ pre rest, create_flashcard w =
          pre ++ [Event.prompt "\nAI_Adder?", Event.prompt "\nAI_Adder?"] ++ rest) ∧
       (w.ans2 = "n" → ∃ pre rest, create_flashcard w =
          pre ++ [Event.prompt "\nAI_Adder?", Event.prompt "\nAI_Adder?",
                  Event.prompt "\nEnter the name of the deck to add the card to: "] ++ rest)) := by
  constructor
  · intro h1 h2
    refine ⟨by simp [resolvedDeck, h1, h2], ?_⟩
    obtain ⟨tail, htail⟩ := create_flashcard_split w key hk
    rw [htail, deckPhase_unbound w ds hdn h1 h2]
    simp
  · intro hans1
    have h1 : w.ans1 ≠ "y" := by rw [hans1]; decide
    constructor
    · by_cases h2 : w.ans2 = "n"
      · obtain ⟨rest, q, hdp⟩ := deckPhase_free_text w ds hdn h1 h2
        obtain ⟨tail, htail⟩ := create_flashcard_split w key hk
        rw [htail, hdp]
        refine ⟨[Event.print "--- AI-Powered Anki Flashcard Adder ---"] ++
          (anki_request "deckNames" (.obj []) w.deckNamesResp).2.1 ++
          [Event.print "\nAvailable Decks:"] ++
          (ds.map fun d => Event.print ("- " ++ displayVal d)),
          [Event.prompt "\nEnter the name of the deck to add the card to: "] ++ rest ++ tail, ?_⟩
        simp [List.append_assoc]
      · obtain ⟨tail, htail⟩ := create_flashcard_split w key hk
        rw [htail, deckPhase_unbound w ds hdn h1 h2]
        refine ⟨[Event.print "--- AI-Powered Anki Flashcard Adder ---"] ++
          (anki_request "deckNames" (.obj []) w.deckNamesResp).2.1 ++
          [Event.print "\nAvailable Decks:"] ++
          (ds.map fun d => Event.print ("- " ++ displayVal d)),
          [Event.print "An error occurred while handling decks: name 'deck_name' is not defined"]
            ++ tail, ?_⟩
        simp [List.append_assoc]
    · intro h2
      obtain ⟨rest, q, hdp⟩ := deckPhase_free_text w ds hdn h1 h2
      obtain ⟨tail, htail⟩ := create_flashcard_split w key hk
      rw [htail, hdp]
      refine ⟨[Event.print "--- AI-Powered Anki Flashcard Adder ---"] ++
        (anki_request "deckNames" (.obj []) w.deckNamesResp).2.1 ++
        [Event.print "\nAvailable Decks:"] ++
        (ds.map fun d => Event.print ("- " ++ displayVal d)),
        rest ++ tail, ?_⟩
      simp [List.append_assoc]

/-- Witness for C9 at concrete answer combinations. -/
theorem c9_prompt_bug_witness :
    resolvedDeck { C1world with ans1 := "x", ans2 := "x" } = none ∧
    Event.print "An error occurred while handling decks: name 'deck_name' is not defined"
      ∈ create_flashcard { C1world with ans1 := "x", ans2 := "x" } ∧
    (∃ pre rest, create_flashcard { C1world with ans1 := "n", ans2 := "n" } =
       pre ++ [Event.prompt "\nAI_Adder?", Event.prompt "\nAI_Adder?",
               Event.prompt "\nEnter the name of the deck to add the card to: "] ++ rest) := by
  refine ⟨?_, ?_, ?_⟩
  · exact ((c9_prompt_bug { C1world with ans1 := "x", ans2 := "x" } "k" [.str "Default"]
      rfl rfl).1 (by decide) (by decide)).1
  · exact ((c9_prompt_bug { C1world with ans1 := "x", ans2 := "x" } "k" [.str "Default"]
      rfl rfl).1 (by decide) (by decide)).2
  · exact ((c9_prompt_bug { C1world with ans1 := "n", ans2 := "n" } "k" [.str "Default"]
      rfl rfl).2 rfl).2 rfl

/-- C10: both external-call helpers are total at their call boundary: for every response or exception, `anki_request` returns `None` or the response's `result` value and `generate_flashcard_content` returns `None` or the extracted text value; the embedded functions return a value for every world because every exception is caught. -/
theorem c10_helpers_total :
    (∀ action params resp,
       (anki_request action params resp).2.2 = .null ∨
       ∃ fs, resp = .envelope (.obj fs) ∧ ankiFailed resp = false ∧
         (anki_request action params resp).2.2 = (fs.lookup "result").getD .null) ∧
    (∀ api_key concept resp,
       generate_flashcard_content api_key concept resp = .null ∨
       ∃ result p0, resp = .http 200 (.json result) ∧ extractPath result = some p0 ∧
         generate_flashcard_content api_key concept resp = exceptValue (pyKey p0 "text")) := by
  constructor
  · intro action params resp
    rcases ankiResult_cases resp with h | ⟨fs, hfs, hfail, hval⟩
    · left; exact h
    · right; exact ⟨fs, hfs, hfail, hval⟩
  · intro k c resp
    exact generate_value_null_or_path k c resp
